import Mathlib

/-!
Verification development for the Gaia hub repository.

The development shallowly embeds the authentication / authorization and
request-pipeline logic of the repository:
  - src/hub/src/server/server.js   (HubServer: validate, handleRequest,
    getReadURLPrefix and the scope-based path authorization)
  - src/hub/src/server/config.ts   (the store and revoke-all express routes,
    and the constant-time buffer comparison equalConstTime)
  - src/gaia.js/src/wire.js        (makeLegacyAuthToken, makeV1AuthToken,
    makeAuthToken)

External library calls (JSON.parse, the elliptic-curve signing primitives,
base64 encoding, the authentication module that recovers the signing address
and the scope list from the bearer token) are passed in as explicit function
or value parameters: the theorems quantify over them, so every statement
holds for each possible behaviour of those collaborators.

JavaScript-specific semantics that the control flow depends on (truthiness,
parseInt returning NaN, bracket indexing on parsed JSON values) are embedded
by small executable models defined first.
-/

deriving instance DecidableEq for Except

namespace Gaia

/-! ## A model of JavaScript values produced by JSON.parse -/

/-- JavaScript String.prototype.startsWith: the characters of the pattern
are an initial run of the characters of the string. -/
def jsStartsWith (s pat : String) : Bool :=
  s.toList.take pat.toList.length == pat.toList

/-- JavaScript String.prototype.slice with one non-negative argument: drop
the first n characters. -/
def jsSliceFrom (s : String) (n : Nat) : String := String.mk (s.toList.drop n)

/-- The values JSON.parse can return: null, booleans, numbers, strings,
arrays and objects.  Numbers are modelled as integers; the claims under
study only exercise integral numbers. -/
inductive Json where
| null : Json
| bool (b : Bool) : Json
| num (n : Int) : Json
| str (s : String) : Json
| arr (elems : List Json) : Json
| obj (fields : List (String × Json)) : Json
deriving Repr

/-- JavaScript truthiness of a value: null, false, 0 and the empty string
are falsy; every other value (including empty arrays and objects) is truthy. -/
def jsTruthy : Json → Bool
| Json.null => false
| Json.bool b => b
| Json.num n => n != 0
| Json.str s => s != ""
| Json.arr _ => true
| Json.obj _ => true

/-- Truthiness of a possibly-undefined value (`none` models undefined). -/
def jsTruthyOpt : Option Json → Bool
| none => false
| some j => jsTruthy j

/-- JavaScript bracket indexing `v[i]` with a numeric index.  Property
access on null throws a TypeError, modelled as the error side; on every
other value it produces a value or undefined (`none`): arrays yield the
element, objects yield the property named by the decimal numeral, strings
yield the one-character string, booleans and numbers yield undefined. -/
def jsIndex (j : Json) (i : Nat) : Except String (Option Json) :=
match j with
| Json.null => Except.error ("Cannot read property " ++ toString i ++ " of null")
| Json.arr es => Except.ok (es.get? i)
| Json.obj fs =>
  Except.ok ((fs.find? (fun kv => kv.fst == toString i)).map (fun kv => kv.snd))
| Json.str s =>
  Except.ok ((s.toList.get? i).map (fun c => Json.str (String.mk [c])))
| _ => Except.ok none

/-- JavaScript property access `v.k`, returning `none` for undefined. -/
def jsField (j : Json) (k : String) : Option Json :=
match j with
| Json.obj fs => (fs.find? (fun kv => kv.fst == k)).map (fun kv => kv.snd)
| _ => none

/-- Strict equality `v === s` between a possibly-undefined value and a
string literal. -/
def jsStrictEqStr (o : Option Json) (s : String) : Bool :=
match o with
| some (Json.str t) => t == s
| _ => false

/-- The ECMAScript WhiteSpace and LineTerminator characters skipped by
parseInt: the ASCII blanks, NBSP, the Ogham space mark, the U+2000 to
U+200A space range, the line and paragraph separators, the narrow and
medium mathematical spaces, the ideographic space and the byte-order
mark. -/
def jsWhitespace (c : Char) : Bool :=
  c == ' ' || c == '\t' || c == '\n' || c == '\r' || c == '\x0b' || c == '\x0c' ||
  c == '\xa0' || c == '\u1680' || (0x2000 ≤ c.toNat && c.toNat ≤ 0x200A) ||
  c == '\u2028' || c == '\u2029' || c == '\u202f' || c == '\u205f' ||
  c == '\u3000' || c == '\ufeff'

/-- Value of a decimal digit character, `none` for every other character. -/
def decDigitVal (c : Char) : Option Nat :=
  if c.isDigit then some (c.toNat - 48) else none

/-- Value of a hexadecimal digit character, `none` otherwise. -/
def hexDigitVal (c : Char) : Option Nat :=
  if c.isDigit then some (c.toNat - 48)
  else if 'a' ≤ c && c ≤ 'f' then some (c.toNat - 87)
  else if 'A' ≤ c && c ≤ 'F' then some (c.toNat - 55)
  else none

/-- Reads the maximal run of digits of the given base from the front of the
character list; NaN (`none`) when no digit is read. -/
def parseDigitsWith (digitVal : Char → Option Nat) (base : Nat)
    (cs : List Char) : Option Nat :=
  let ds := cs.takeWhile (fun c => (digitVal c).isSome)
  if ds.isEmpty then none
  else some (ds.foldl (fun a c => a * base + ((digitVal c).getD 0)) 0)

/-- Splits an optional leading sign off a character list. -/
def jsSignSplit (cs : List Char) : Int × List Char :=
match cs with
| '-' :: t => (-1, t)
| '+' :: t => (1, t)
| _ => (1, cs)

/-- JavaScript parseInt with explicit radix 10 (the wire.js call): skip
leading whitespace, read an optional sign and then the maximal run of
decimal digits; the result is NaN (modelled as `none`) when no digit is
read. -/
def jsParseInt (s : String) : Option Int :=
  let sr := jsSignSplit (s.toList.dropWhile jsWhitespace)
  (parseDigitsWith decDigitVal 10 sr.snd).map (fun n => sr.fst * Int.ofNat n)

/-- JavaScript parseInt without a radix argument (the config.ts and
server.js calls): as the radix-10 form, except that after the sign a 0x or
0X prefix switches to hexadecimal digits (NaN when no hexadecimal digit
follows the prefix). -/
def jsParseIntNoRadix (s : String) : Option Int :=
  let sr := jsSignSplit (s.toList.dropWhile jsWhitespace)
  match sr.snd with
  | '0' :: 'x' :: t =>
    (parseDigitsWith hexDigitVal 16 t).map (fun n => sr.fst * Int.ofNat n)
  | '0' :: 'X' :: t =>
    (parseDigitsWith hexDigitVal 16 t).map (fun n => sr.fst * Int.ofNat n)
  | _ => (parseDigitsWith decDigitVal 10 sr.snd).map (fun n => sr.fst * Int.ofNat n)

/-- JavaScript rendering of a number, for the values the integer model can
carry: magnitudes below 1e21 print in plain decimal; at or above 1e21 the
exponent notation is used (leading digit, a fractional part with trailing
zeros stripped, then e+ and the exponent), as JS does for such magnitudes.
(Numbers are modelled as exact integers throughout; the double-precision
rounding JS applies above 2 to the 53rd is outside the model.) -/
def jsNumToString (n : Int) : String :=
  let an := n.natAbs
  if an < 10 ^ 21 then toString n
  else
    let ds := (toString an).toList
    let e := ds.length - 1
    let frac := ((ds.drop 1).reverse.dropWhile (fun c => c == '0')).reverse
    (if n < 0 then "-" else "") ++ String.mk (ds.take 1)
      ++ (if frac.isEmpty then "" else "." ++ String.mk frac)
      ++ "e+" ++ toString e

mutual
/-- JavaScript string coercion String(v) of a parsed-JSON value, as used by
parseInt on a non-string argument: numbers print through the number
rendering (decimal below 1e21, exponent notation above), arrays join their
elements with commas (null elements joining as the empty string), objects
print as the fixed object placeholder text. -/
def jsToString : Json → String
| Json.null => "null"
| Json.bool b => if b then "true" else "false"
| Json.num n => jsNumToString n
| Json.str s => s
| Json.arr es => jsArrJoin es
| Json.obj _ => "[object Object]"

/-- Array.prototype.toString: elements joined by commas, null rendered empty. -/
def jsArrJoin : List Json → String
| [] => ""
| [Json.null] => ""
| [j] => jsToString j
| Json.null :: rest => "," ++ jsArrJoin rest
| j :: rest => jsToString j ++ "," ++ jsArrJoin rest
end

/-- The radix-less parseInt applied to an arbitrary value (the config.ts
revoke-route call) coerces it to a string first. -/
def jsParseIntOfJson (j : Json) : Option Int := jsParseIntNoRadix (jsToString j)

/-! ## Hub server errors (src/hub/src/server/errors.js taxonomy)

The store route of config.ts discriminates the rejection of a request by the
error class; the classes relevant to the embedded code are listed here, each
carrying its message.  `otherError` stands for every failure that is none of
the named classes (driver I/O errors and other unexpected exceptions). -/

inductive HubError where
| validationError (msg : String) : HubError
| authTokenTimestampValidationError (msg : String) : HubError
| badPathError (msg : String) : HubError
| notEnoughProofError (msg : String) : HubError
| otherError (msg : String) : HubError
deriving Repr, DecidableEq

/-! ## Scopes (data model of the authentication scopes)

getAuthenticationScopes (authentication module) yields entries
`scope ∈ putFile | putFilePrefix` with a domain string; this is the
shape HubServer.handleRequest consumes at server.js lines 79-105. -/

/-- The two write-scope kinds carried by a token. -/
inductive ScopeKind where
| putFile : ScopeKind
| putFilePrefixScope : ScopeKind
deriving Repr, DecidableEq

/-- One scope entry: a kind and a domain string. -/
structure AuthScope where
  scope : ScopeKind
  domain : String
deriving Repr, DecidableEq

/-! ## HubServer.validate (server.js lines 38-48)

validateAuthorizationHeader lives in the authentication module; its outcome
on the given request is passed in as `recoverRes` (either the recovered
signing address or the error it throws).  The whitelist is `none` when the
config leaves it null (JavaScript falsy, so the membership check is skipped)
and `some wl` when configured; note an empty configured list is truthy in
JavaScript and rejects every address, which the model preserves. -/

def validate (recoverRes : Except HubError String)
    (whitelist : Option (List String)) : Except HubError Unit :=
match recoverRes with
| Except.error e => Except.error e
| Except.ok signingAddress =>
  match whitelist with
  | none => Except.ok ()
  | some wl =>
    if signingAddress ∈ wl then Except.ok ()
    else Except.error (HubError.validationError
      ("Address " ++ signingAddress ++ " not authorized for writes"))

/-! ## The scope-based path authorization (server.js lines 79-105) -/

/-- The path check of HubServer.handleRequest: collect the domains of the
putFilePrefix scopes (writePrefixes) and of the putFile scopes (writePaths)
in order; when at least one of the two lists is non-empty the path must
start with some collected domain of the first list or equal some domain of
the second, otherwise a ValidationError is thrown; when both lists are
empty no restriction applies. -/
def checkScopesPath (address path : String) (scopes : List AuthScope) :
    Except HubError Unit :=
  let writePrefixes := (scopes.filter
    (fun s => s.scope == ScopeKind.putFilePrefixScope)).map (fun s => s.domain)
  let writePaths := (scopes.filter
    (fun s => s.scope == ScopeKind.putFile)).map (fun s => s.domain)
  if writePrefixes.length > 0 || writePaths.length > 0 then
    let matchFound := writePrefixes.any (fun p => jsStartsWith path p)
      || writePaths.any (fun p => path == p)
    if matchFound then Except.ok ()
    else Except.error (HubError.validationError
      ("Address " ++ address ++ " not authorized to write to "
        ++ path ++ " by scopes"))
  else Except.ok ()

/-! ## Read-URL selection and rewriting (server.js lines 57-63 and 113-121) -/

/-- HubServer.getReadURLPrefix: the configured readURL when truthy
(non-empty), else the native read-URL base of the driver. -/
def getReadURLPre (configReadURL : Option String) (drvReadBase : String) :
    String :=
match configReadURL with
| some r => if r == "" then drvReadBase else r
| none => drvReadBase

/-- The URL-rewriting step of handleRequest (the final then-callback): when
the selected read-URL base differs from the native base of the driver and
the URL returned by the driver starts with the native base, splice the
selected base onto the remainder; otherwise return the URL of the driver
unchanged. -/
def rewriteReadURL (configReadURL : Option String) (drvReadBase readURL : String) :
    String :=
  let base := getReadURLPre configReadURL drvReadBase
  if base != drvReadBase && jsStartsWith readURL drvReadBase then
    base ++ (jsSliceFrom readURL drvReadBase.toList.length)
  else readURL

/-! ## The write pipeline (server.js lines 65-122) -/

/-- The write command handed to driver.performWrite (server.js lines
107-109).  The request stream is passed through untouched by the code and
is not part of the model; contentLength is parseInt of the content-length
header, with `none` standing for NaN. -/
structure WriteCommand where
  storageTopLevel : String
  path : String
  contentType : String
  contentLength : Option Int
deriving Repr, DecidableEq

/-- Builds the write command: the content type defaults to the octet-stream
type when the header is null or undefined (server.js lines 72-76); the
content length is the radix-less parseInt of the header (server.js line
109). -/
def mkWriteCommand (address path : String) (contentTypeHdr : Option String)
    (contentLengthHdr : String) : WriteCommand :=
  { storageTopLevel := address
    path := path
    contentType :=
      match contentTypeHdr with
      | none => "application/octet-stream"
      | some c => c
    contentLength := jsParseIntNoRadix contentLengthHdr }

/-- The observable steps of one pass through handleRequest, in invocation
order; the write step records the command handed to the driver. -/
inductive PipeEvent where
| validateInvoked : PipeEvent
| scopeCheckInvoked : PipeEvent
| proofCheckInvoked : PipeEvent
| writeInvoked (cmd : WriteCommand) : PipeEvent
| rewriteInvoked : PipeEvent
deriving Repr, DecidableEq

/-- HubServer.handleRequest as a function of the outcomes of its
collaborators: `recoverRes` is the result of validateAuthorizationHeader,
`scopes` the result of getAuthenticationScopes, `proofRes` the outcome of
proofChecker.checkProofs, `performWrite` the driver write.  The returned
pair is the result of the promise chain together with the trace of steps
reached, in order. -/
def handleRequest (recoverRes : Except HubError String)
    (whitelist : Option (List String))
    (scopes : List AuthScope)
    (proofRes : Except HubError Unit)
    (performWrite : WriteCommand → Except HubError String)
    (drvReadBase : String)
    (configReadURL : Option String)
    (address path : String)
    (contentTypeHdr : Option String)
    (contentLengthHdr : String) :
    Except HubError String × List PipeEvent :=
match validate recoverRes whitelist with
| Except.error e => (Except.error e, [PipeEvent.validateInvoked])
| Except.ok _ =>
  match checkScopesPath address path scopes with
  | Except.error e =>
    (Except.error e, [PipeEvent.validateInvoked, PipeEvent.scopeCheckInvoked])
  | Except.ok _ =>
    let cmd := mkWriteCommand address path contentTypeHdr contentLengthHdr
    match proofRes with
    | Except.error e =>
      (Except.error e,
        [PipeEvent.validateInvoked, PipeEvent.scopeCheckInvoked,
         PipeEvent.proofCheckInvoked])
    | Except.ok _ =>
      match performWrite cmd with
      | Except.error e =>
        (Except.error e,
          [PipeEvent.validateInvoked, PipeEvent.scopeCheckInvoked,
           PipeEvent.proofCheckInvoked, PipeEvent.writeInvoked cmd])
      | Except.ok readURL =>
        (Except.ok (rewriteReadURL configReadURL drvReadBase readURL),
          [PipeEvent.validateInvoked, PipeEvent.scopeCheckInvoked,
           PipeEvent.proofCheckInvoked, PipeEvent.writeInvoked cmd,
           PipeEvent.rewriteInvoked])

/-! ## The store route (config.ts lines 211-237) -/

/-- The JSON body plus status code written by writeResponse for the store
route: `errName` is the error field of the body (the class name of the
error), `publicURL` the success field. -/
structure RouteResponse where
  status : Nat
  message : Option String
  errName : Option String
  publicURL : Option String
deriving Repr, DecidableEq

/-- The response of the store route as a function of the outcome of
handleRequest: success answers 202 with the public URL; ValidationError and
AuthTokenTimestampValidationError answer 401, BadPathError 403,
NotEnoughProofError 402, each echoing the message and error name; every
other failure answers 500 with the fixed server-error body. -/
def storeRouteRespond (result : Except HubError String) : RouteResponse :=
match result with
| Except.ok publicURL =>
  { status := 202, message := none, errName := none, publicURL := some publicURL }
| Except.error (HubError.validationError m) =>
  { status := 401, message := some m, errName := some "ValidationError",
    publicURL := none }
| Except.error (HubError.authTokenTimestampValidationError m) =>
  { status := 401, message := some m,
    errName := some "AuthTokenTimestampValidationError", publicURL := none }
| Except.error (HubError.badPathError m) =>
  { status := 403, message := some m, errName := some "BadPathError",
    publicURL := none }
| Except.error (HubError.notEnoughProofError m) =>
  { status := 402, message := some m, errName := some "NotEnoughProofError",
    publicURL := none }
| Except.error (HubError.otherError _) =>
  { status := 500, message := some "Server Error", errName := none,
    publicURL := none }

/-! ## The revoke-all route (config.ts lines 268-305) -/

/-- What the revoke-all route does with a request body before (possibly)
invoking server.handleAuthBump: either it answers 400 with a message, or it
invokes the bump with the parsed timestamp. -/
inductive RevokeAction where
| respond400 (msg : String) : RevokeAction
| bumpInvoked (oldestValidTimestamp : Int) : RevokeAction
deriving Repr, DecidableEq

/-- The guard logic of the revoke-all route: reject oversized bodies, then
reject when req.body or req.body.oldestValidTimestamp is falsy, then
parseInt the field (string coercion first) and reject NaN via the
Number.isFinite test; otherwise hand the parsed integer to the bump. -/
def revokeRouteAction (contentLengthHdr : Int) (body : Json) : RevokeAction :=
  if contentLengthHdr > 4096 then RevokeAction.respond400 "Invalid JSON: too long"
  else if !(jsTruthy body && jsTruthyOpt (jsField body "oldestValidTimestamp")) then
    RevokeAction.respond400 "Invalid JSON: missing oldestValidTimestamp"
  else
    match (jsField body "oldestValidTimestamp").map jsParseIntOfJson with
    | some (some ts) => RevokeAction.bumpInvoked ts
    | _ => RevokeAction.respond400
        "Invalid JSON: oldestValidTimestamp is not a valid integer"

/-! ## equalConstTime (config.ts lines 418-427)

Buffers are modelled as lists of natural numbers (the byte values); the
loop ORs together the XOR of each byte pair and compares the accumulator
with zero at the end. -/

/-- Constant-time buffer comparison: false on a length mismatch, else the
OR-accumulated XOR of the pointwise byte pairs must be zero. -/
def equalConstTime (b1 b2 : List Nat) : Bool :=
  if b1.length != b2.length then false
  else ((List.zipWith (fun x y => x ^^^ y) b1 b2).foldl
    (fun res x => res ||| x) 0) == 0

/-! ## The client token issuer (src/gaia.js/src/wire.js)

The cryptographic library calls and JSON.parse are passed in as function
parameters: `parse` models JSON.parse (none = throw), `signChallenge key
text` the composite hexStringToECPair / sha256 / sign / toDER hex pipeline
of makeLegacyAuthToken, `getPub` getPublicKeyFromPrivate, `encodeLegacy`
the base64 encoding of the JSON serialization of the legacy token,
`signPayload` the ES256K TokenSigner. -/

/-- The failures the issuer can surface: the parse failure ("Failed in
parsing legacy challenge text from the gaia hub."), the
unsupported-challenge failure ("Failed to connect to legacy gaia hub. If
you operate this hub, please update.") which is the
UnsupportedChallengeError of the specification, and an uncaught TypeError
escaping from a property access on null (wire.js line 22 when the
challenge text parses to the JSON null value). -/
inductive ClientError where
| challengeParseError (msg : String) : ClientError
| unsupportedChallengeError (msg : String) : ClientError
| jsTypeError (msg : String) : ClientError
deriving Repr, DecidableEq

/-- The legacy token content before base64 encoding. -/
structure LegacyToken where
  publickey : String
  signature : String
deriving Repr, DecidableEq

/-- makeLegacyAuthToken (wire.js lines 12-35): truncate the secret key to
64 characters, JSON.parse the challenge (parse failure throws the parse
error), then evaluate the conjunction of wire.js lines 22-23 with the
JavaScript evaluation order: indexing the parsed value at 0 (a TypeError
escapes uncaught when the parsed value is null), comparing with the
gaiahub marker (a mismatch short-circuits to the unsupported-challenge
error without evaluating index 3), then indexing at 3 and comparing with
the storage sentinel phrase; when both comparisons hold, sign the raw
challenge text and pair the signature with the public key. -/
def makeLegacyAuthToken (parse : String → Option Json)
    (signChallenge : String → String → String)
    (getPub : String → String)
    (challengeText secretKey : String) : Except ClientError LegacyToken :=
  let key := secretKey.take 64
  match parse challengeText with
  | none => Except.error (ClientError.challengeParseError
      "Failed in parsing legacy challenge text from the gaia hub.")
  | some parsedChallenge =>
    match jsIndex parsedChallenge 0 with
    | Except.error m => Except.error (ClientError.jsTypeError m)
    | Except.ok elem0 =>
      if jsStrictEqStr elem0 "gaiahub" then
        match jsIndex parsedChallenge 3 with
        | Except.error m => Except.error (ClientError.jsTypeError m)
        | Except.ok elem3 =>
          if jsStrictEqStr elem3 "blockstack_storage_please_sign" then
            Except.ok { publickey := getPub key,
                        signature := signChallenge key challengeText }
          else Except.error (ClientError.unsupportedChallengeError
            "Failed to connect to legacy gaia hub. If you operate this hub, please update.")
      else Except.error (ClientError.unsupportedChallengeError
        "Failed to connect to legacy gaia hub. If you operate this hub, please update.")

/-- The sentinel shape named by the specification: a 4-element array whose
first element is the gaiahub marker and whose fourth element is the storage
sentinel phrase.  Stated from the words of the specification, for
comparison with the condition the code actually tests. -/
def legacySentinelShape4 (parsed : Json) : Bool :=
match parsed with
| Json.arr es =>
  es.length == 4
    && jsStrictEqStr (es.get? 0) "gaiahub"
    && jsStrictEqStr (es.get? 3) "blockstack_storage_please_sign"
| _ => false

/-- The v1 token payload (wire.js lines 49-53). -/
structure V1Payload where
  gaiaChallenge : String
  iss : String
  exp : Int
  associationToken : Option String
  hubUrl : Option String
  salt : String
deriving Repr, DecidableEq

/-- The fixed validity window of a v1 token, in seconds. -/
def fourMonthSeconds : Int := 60 * 60 * 24 * 31 * 4

/-- makeV1AuthToken (wire.js lines 37-56): truncate the secret key, build
the payload with the challenge, the public key as issuer, an expiry one
validity window past the current date-seconds `now`, the association token,
hub URL and the random `salt`, sign it, and tag the result with the v1
version marker. -/
def makeV1AuthToken (signPayload : String → V1Payload → String)
    (getPub : String → String) (now : Int) (salt : String)
    (secretKey challengeText : String)
    (associationToken hubUrl : Option String) : String :=
  let key := secretKey.take 64
  "v1:" ++ signPayload key
    { gaiaChallenge := challengeText
      iss := getPub key
      exp := fourMonthSeconds + now
      associationToken := associationToken
      hubUrl := hubUrl
      salt := salt }

/-- The hub-info object as consumed by makeAuthToken: the challenge text
and the advertised latest_auth_version (`none` when the field is absent). -/
structure HubInfo where
  challenge_text : String
  latest_auth_version : Option String
deriving Repr, DecidableEq

/-- The version test of makeAuthToken (wire.js lines 61-62): the
latest_auth_version field must be present and truthy, and parseInt of the
string with its first character dropped must be at least 1 (NaN fails the
comparison). -/
def jsHandlesV1Auth (hubInfo : HubInfo) : Bool :=
match hubInfo.latest_auth_version with
| none => false
| some v =>
  v != "" &&
    (match jsParseInt (v.drop 1) with
     | some n => decide (1 ≤ n)
     | none => false)

/-- makeAuthToken (wire.js lines 58-69): when the hub does not advertise a
v1-capable auth version take the legacy path (whose result is base64
encoded by `encodeLegacy`), else build a v1 token. -/
def makeAuthToken (parse : String → Option Json)
    (signChallenge : String → String → String)
    (getPub : String → String)
    (encodeLegacy : LegacyToken → String)
    (signPayload : String → V1Payload → String)
    (now : Int) (salt : String)
    (hubInfo : HubInfo) (signerKeyHex hubUrl : String)
    (associationToken : Option String) : Except ClientError String :=
  if jsHandlesV1Auth hubInfo then
    Except.ok (makeV1AuthToken signPayload getPub now salt signerKeyHex
      hubInfo.challenge_text associationToken (some hubUrl))
  else
    (makeLegacyAuthToken parse signChallenge getPub
      hubInfo.challenge_text signerKeyHex).map encodeLegacy

/-- A four-element challenge array of the exact sentinel shape the
specification describes. -/
def sampleChallenge4 : Json :=
  Json.arr [Json.str "gaiahub", Json.str "2017", Json.str "MyChallengeData",
    Json.str "blockstack_storage_please_sign"]

/-- A five-element challenge array whose elements 0 and 3 carry the marker
and the sentinel phrase: it satisfies the condition the code tests but not
the four-element arity the specification states. -/
def sampleChallenge5 : Json :=
  Json.arr [Json.str "gaiahub", Json.str "2017", Json.str "MyChallengeData",
    Json.str "blockstack_storage_please_sign", Json.str "extra"]

/-! ## Theorems -/

theorem natOr_eq_zero {x y : Nat} : x ||| y = 0 ↔ x = 0 ∧ y = 0 := by
  constructor
  · intro h
    constructor
    · apply Nat.eq_of_testBit_eq
      intro i
      have hb : (x ||| y).testBit i = false := by simp [h]
      simp only [Nat.testBit_or, Bool.or_eq_false_iff] at hb
      simp [hb.1]
    · apply Nat.eq_of_testBit_eq
      intro i
      have hb : (x ||| y).testBit i = false := by simp [h]
      simp only [Nat.testBit_or, Bool.or_eq_false_iff] at hb
      simp [hb.2]
  · rintro ⟨hx, hy⟩
    simp [hx, hy]

theorem foldlOr_eq_zero (l : List Nat) :
    ∀ a : Nat, (l.foldl (fun res x => res ||| x) a = 0 ↔ (a = 0 ∧ ∀ x ∈ l, x = 0)) := by
  induction l with
  | nil => intro a; simp
  | cons y t ih =>
    intro a
    simp only [List.foldl_cons, ih, List.mem_cons, natOr_eq_zero]
    constructor
    · rintro ⟨⟨ha, hy⟩, ht⟩
      exact ⟨ha, fun x hx => hx.elim (fun e => e ▸ hy) (ht x)⟩
    · rintro ⟨ha, hall⟩
      exact ⟨⟨ha, hall y (Or.inl rfl)⟩, fun x hx => hall x (Or.inr hx)⟩

theorem equalConstTime_iff_eq (b1 b2 : List Nat) :
    equalConstTime b1 b2 = true ↔ b1 = b2 := by
  unfold equalConstTime
  by_cases hl : b1.length = b2.length
  · simp only [hl, bne_self_eq_false, Bool.false_eq_true, if_false, beq_iff_eq,
      foldlOr_eq_zero, true_and]
    constructor
    · intro h
      apply List.ext_get hl
      intro i h1 h2
      have hm : b1.get ⟨i, h1⟩ ^^^ b2.get ⟨i, h2⟩ ∈ List.zipWith (fun x y => x ^^^ y) b1 b2 := by
        rw [List.mem_iff_get]
        refine ⟨⟨i, ?_⟩, ?_⟩
        · simp only [List.length_zipWith]
          omega
        · simp [List.get_eq_getElem, List.getElem_zipWith]
      exact Nat.xor_eq_zero.mp (h _ hm)
    · intro h
      subst h
      intro x hx
      rw [List.mem_iff_get] at hx
      obtain ⟨i, hi⟩ := hx
      simp only [List.get_eq_getElem, List.getElem_zipWith, Nat.xor_self] at hi
      omega
  · have hne : (b1.length != b2.length) = true := bne_iff_ne.mpr hl
    simp only [hne, if_true, Bool.false_eq_true, false_iff]
    intro contra
    exact hl (congrArg List.length contra)

/-- C10: for every pair of byte buffers, equalConstTime returns true if and
only if the two buffers have the same length and identical bytes at every
index. -/
theorem claim_C10_equalConstTime (b1 b2 : List Nat) :
    equalConstTime b1 b2 = true ↔
      (b1.length = b2.length ∧
        ∀ (i : Nat) (h1 : i < b1.length) (h2 : i < b2.length),
          b1.get ⟨i, h1⟩ = b2.get ⟨i, h2⟩) := by
  rw [equalConstTime_iff_eq]
  exact List.ext_get_iff

/-- Concrete instance of C10: equal buffers compare true, and a buffer pair
differing in one byte compares false. -/
theorem claim_C10_equalConstTime_witness :
    equalConstTime [7, 1] [7, 1] = true ∧ equalConstTime [7, 1] [7, 2] = false :=
  ⟨(claim_C10_equalConstTime [7, 1] [7, 1]).mpr (by decide), by decide⟩

theorem checkScopesPath_cases (address path : String) (scopes : List AuthScope) :
    checkScopesPath address path scopes = Except.ok () ∨
      checkScopesPath address path scopes =
        Except.error (HubError.validationError
          ("Address " ++ address ++ " not authorized to write to "
            ++ path ++ " by scopes")) := by
  unfold checkScopesPath
  dsimp only
  split
  · split
    · exact Or.inl rfl
    · exact Or.inr rfl
  · exact Or.inl rfl

theorem scopes_filter_nil_iff (scopes : List AuthScope) :
    ((scopes.filter (fun s => s.scope == ScopeKind.putFilePrefixScope)) = [] ∧
     (scopes.filter (fun s => s.scope == ScopeKind.putFile)) = []) ↔ scopes = [] := by
  constructor
  · rintro ⟨hp, hq⟩
    cases hs : scopes with
    | nil => rfl
    | cons s t =>
      exfalso
      cases hk : s.scope with
      | putFilePrefixScope =>
        have hmem : s ∈ scopes.filter (fun s => s.scope == ScopeKind.putFilePrefixScope) := by
          rw [List.mem_filter]
          exact ⟨by rw [hs]; exact List.mem_cons_self s t, by simp [hk]⟩
        rw [hp] at hmem
        exact List.not_mem_nil s hmem
      | putFile =>
        have hmem : s ∈ scopes.filter (fun s => s.scope == ScopeKind.putFile) := by
          rw [List.mem_filter]
          exact ⟨by rw [hs]; exact List.mem_cons_self s t, by simp [hk]⟩
        rw [hq] at hmem
        exact List.not_mem_nil s hmem
  · intro h
    subst h
    exact ⟨rfl, rfl⟩

theorem scopeMatch_iff (path : String) (scopes : List AuthScope) :
    (((scopes.filter (fun s => s.scope == ScopeKind.putFilePrefixScope)).map
        (fun s => s.domain)).any (fun p => jsStartsWith path p)
      || ((scopes.filter (fun s => s.scope == ScopeKind.putFile)).map
        (fun s => s.domain)).any (fun p => path == p)) = true
    ↔ ∃ s ∈ scopes,
        (s.scope = ScopeKind.putFilePrefixScope ∧ jsStartsWith path s.domain = true) ∨
        (s.scope = ScopeKind.putFile ∧ path = s.domain) := by
  simp only [Bool.or_eq_true, List.any_eq_true, List.mem_map, List.mem_filter,
    beq_iff_eq]
  constructor
  · rintro (⟨x, ⟨s, ⟨hm, hk⟩, rfl⟩, hp⟩ | ⟨x, ⟨s, ⟨hm, hk⟩, rfl⟩, hp⟩)
    · exact ⟨s, hm, Or.inl ⟨hk, hp⟩⟩
    · exact ⟨s, hm, Or.inr ⟨hk, by simpa using hp⟩⟩
  · rintro ⟨s, hm, ⟨hk, hp⟩ | ⟨hk, hp⟩⟩
    · exact Or.inl ⟨s.domain, ⟨s, ⟨hm, hk⟩, rfl⟩, hp⟩
    · exact Or.inr ⟨s.domain, ⟨s, ⟨hm, hk⟩, rfl⟩, by simpa using hp⟩

theorem checkScopesPath_ok_iff (address path : String) (scopes : List AuthScope) :
    checkScopesPath address path scopes = Except.ok () ↔
      (scopes = [] ∨
        ∃ s ∈ scopes,
          (s.scope = ScopeKind.putFilePrefixScope ∧ jsStartsWith path s.domain = true) ∨
          (s.scope = ScopeKind.putFile ∧ path = s.domain)) := by
  unfold checkScopesPath
  dsimp only
  split
  · rename_i hcond
    have hnotnil : scopes ≠ [] := by
      intro hnil
      subst hnil
      simp at hcond
    split
    · rename_i hm
      simp only [true_iff]
      exact Or.inr ((scopeMatch_iff path scopes).mp hm)
    · rename_i hm
      constructor
      · intro contra
        exact Except.noConfusion contra
      · intro hrhs
        exfalso
        rcases hrhs with hnil | hex
        · exact hnotnil hnil
        · exact hm ((scopeMatch_iff path scopes).mpr hex)
  · simp only [true_iff]
    rename_i hcond
    left
    simp only [Bool.or_eq_true, decide_eq_true_eq, not_or, Nat.pos_iff_ne_zero,
      List.length_map] at hcond
    apply (scopes_filter_nil_iff scopes).mp
    constructor
    · exact List.length_eq_zero.mp (by omega)
    · exact List.length_eq_zero.mp (by omega)



theorem checkScopesPath_perm (address path : String) {scopes scopes2 : List AuthScope}
    (h : scopes.Perm scopes2) :
    checkScopesPath address path scopes = checkScopesPath address path scopes2 := by
  have transfer : checkScopesPath address path scopes = Except.ok () →
      checkScopesPath address path scopes2 = Except.ok () := by
    intro h1
    rw [checkScopesPath_ok_iff] at h1 ⊢
    rcases h1 with hnil | ⟨s, hm, hmatch⟩
    · left
      rw [hnil] at h
      exact h.symm.eq_nil
    · exact Or.inr ⟨s, h.mem_iff.mp hm, hmatch⟩
  have transfer2 : checkScopesPath address path scopes2 = Except.ok () →
      checkScopesPath address path scopes = Except.ok () := by
    intro h1
    rw [checkScopesPath_ok_iff] at h1 ⊢
    rcases h1 with hnil | ⟨s, hm, hmatch⟩
    · left
      rw [hnil] at h
      exact h.eq_nil
    · exact Or.inr ⟨s, h.mem_iff.mpr hm, hmatch⟩
  rcases checkScopesPath_cases address path scopes with h1 | h1 <;>
    rcases checkScopesPath_cases address path scopes2 with h2 | h2
  · rw [h1, h2]
  · rw [transfer h1] at h2
    exact Except.noConfusion h2
  · rw [transfer2 h2] at h1
    exact Except.noConfusion h1
  · rw [h1, h2]

/-- C1: for a write request, an empty scope list allows every path; a
non-empty scope list allows the path exactly when it starts with the domain
of a putFilePrefix scope or equals the domain of a putFile scope; the
decision is invariant under permutation of the scope list; a denial carries
a ValidationError; and a denied scope check makes handleRequest fail with
that ValidationError.  The concrete instances of the claim are in the
witness theorem. -/
theorem claim_C1_path_scopes (address path : String) (scopes : List AuthScope) :
    (scopes = [] → checkScopesPath address path scopes = Except.ok ()) ∧
    (scopes ≠ [] →
      (checkScopesPath address path scopes = Except.ok () ↔
        ∃ s ∈ scopes,
          (s.scope = ScopeKind.putFilePrefixScope ∧ jsStartsWith path s.domain = true) ∨
          (s.scope = ScopeKind.putFile ∧ path = s.domain))) ∧
    (∀ scopes2, scopes.Perm scopes2 →
      checkScopesPath address path scopes = checkScopesPath address path scopes2) ∧
    (checkScopesPath address path scopes ≠ Except.ok () →
      checkScopesPath address path scopes =
        Except.error (HubError.validationError
          ("Address " ++ address ++ " not authorized to write to "
            ++ path ++ " by scopes"))) ∧
    (∀ (recoverRes : Except HubError String) (whitelist : Option (List String))
        (proofRes : Except HubError Unit)
        (performWrite : WriteCommand → Except HubError String)
        (drvReadBase : String) (configReadURL : Option String)
        (contentTypeHdr : Option String) (contentLengthHdr : String),
      validate recoverRes whitelist = Except.ok () →
      checkScopesPath address path scopes ≠ Except.ok () →
      (handleRequest recoverRes whitelist scopes proofRes performWrite drvReadBase
          configReadURL address path contentTypeHdr contentLengthHdr).fst =
        Except.error (HubError.validationError
          ("Address " ++ address ++ " not authorized to write to "
            ++ path ++ " by scopes"))) := by
  refine ⟨?_, ?_, ?_, ?_, ?_⟩
  · intro h
    subst h
    rfl
  · intro hne
    rw [checkScopesPath_ok_iff, or_iff_right hne]
  · intro scopes2 h
    exact checkScopesPath_perm address path h
  · intro hne
    rcases checkScopesPath_cases address path scopes with hok | herr
    · exact absurd hok hne
    · exact herr
  · intro recoverRes whitelist proofRes performWrite drvReadBase configReadURL
      contentTypeHdr contentLengthHdr hval hne
    rcases checkScopesPath_cases address path scopes with hok | herr
    · exact absurd hok hne
    · simp [handleRequest, hval, herr]

/-- Concrete instances of C1: with the single scope putFilePrefix of domain
a-slash, the paths a-slash-b and a-slash are authorized and b-slash-a is
denied with a ValidationError. -/
theorem claim_C1_path_scopes_witness :
    checkScopesPath "addrA" "a/b" [⟨ScopeKind.putFilePrefixScope, "a/"⟩] = Except.ok () ∧
    checkScopesPath "addrA" "a/" [⟨ScopeKind.putFilePrefixScope, "a/"⟩] = Except.ok () ∧
    checkScopesPath "addrA" "b/a" [⟨ScopeKind.putFilePrefixScope, "a/"⟩] =
      Except.error (HubError.validationError
        "Address addrA not authorized to write to b/a by scopes") := by
  refine ⟨?_, ?_, ?_⟩
  · exact ((claim_C1_path_scopes "addrA" "a/b" _).2.1 (by decide)).mpr
      ⟨⟨ScopeKind.putFilePrefixScope, "a/"⟩, by decide, Or.inl ⟨rfl, by decide⟩⟩
  · exact ((claim_C1_path_scopes "addrA" "a/" _).2.1 (by decide)).mpr
      ⟨⟨ScopeKind.putFilePrefixScope, "a/"⟩, by decide, Or.inl ⟨rfl, by decide⟩⟩
  · exact ((claim_C1_path_scopes "addrA" "b/a" _).2.2.2.1 (by decide)).trans (by decide)

/-- C2: with a configured whitelist, validate succeeds exactly when the
address recovered from the bearer token is a member, and rejection is a
ValidationError whose message names the rejected address; with no
whitelist configured, every recovered address is accepted. -/
theorem claim_C2_whitelist (recoverRes : Except HubError String) (addr : String)
    (whitelist : Option (List String)) (h : recoverRes = Except.ok addr) :
    (whitelist = none → validate recoverRes whitelist = Except.ok ()) ∧
    (∀ wl, whitelist = some wl →
      ((validate recoverRes whitelist = Except.ok ()) ↔ addr ∈ wl) ∧
      (addr ∉ wl →
        validate recoverRes whitelist =
          Except.error (HubError.validationError
            ("Address " ++ addr ++ " not authorized for writes")) ∧
        ∃ before after, ("Address " ++ addr ++ " not authorized for writes")
          = before ++ addr ++ after)) := by
  subst h
  refine ⟨?_, ?_⟩
  · intro h
    subst h
    rfl
  · intro wl hwl
    subst hwl
    constructor
    · unfold validate
      by_cases hm : addr ∈ wl
      · simp [hm]
      · simp [hm]
    · intro hm
      refine ⟨?_, "Address ", " not authorized for writes", rfl⟩
      unfold validate
      simp [hm]

/-- Concrete instance of C2: an address outside the configured whitelist is
rejected with the naming ValidationError, and with no whitelist it passes. -/
theorem claim_C2_whitelist_witness :
    validate (Except.ok "addrA") (some ["addrB"]) =
      Except.error (HubError.validationError "Address addrA not authorized for writes") ∧
    validate (Except.ok "addrA") none = Except.ok () := by
  constructor
  · have h := claim_C2_whitelist (Except.ok "addrA") "addrA" (some ["addrB"]) rfl
    exact (((h.2 ["addrB"] rfl).2 (by decide)).1).trans (by decide)
  · exact (claim_C2_whitelist (Except.ok "addrA") "addrA" none rfl).1 rfl

/-- C6: the store route answers 202 (distinct from 200) with the public URL
on success; 401 for ValidationError and for
AuthTokenTimestampValidationError; 403 for BadPathError; 402 for
NotEnoughProofError; and for every other failure a fixed opaque 500 body
that does not echo the internal error message. -/
theorem claim_C6_store_route (result : Except HubError String) :
    (∀ url, result = Except.ok url →
      storeRouteRespond result =
        { status := 202, message := none, errName := none, publicURL := some url } ∧
      (202 : Nat) ≠ 200) ∧
    (∀ m, result = Except.error (HubError.validationError m) →
      (storeRouteRespond result).status = 401) ∧
    (∀ m, result = Except.error (HubError.authTokenTimestampValidationError m) →
      (storeRouteRespond result).status = 401) ∧
    (∀ m, result = Except.error (HubError.badPathError m) →
      (storeRouteRespond result).status = 403) ∧
    (∀ m, result = Except.error (HubError.notEnoughProofError m) →
      (storeRouteRespond result).status = 402) ∧
    (∀ m, result = Except.error (HubError.otherError m) →
      storeRouteRespond result =
        { status := 500, message := some "Server Error", errName := none,
          publicURL := none }) := by
  refine ⟨?_, ?_, ?_, ?_, ?_, ?_⟩ <;> intro x h <;> subst h
  · exact ⟨rfl, by decide⟩
  · rfl
  · rfl
  · rfl
  · rfl
  · rfl

/-- Concrete instance of C6: a successful write and an unexpected internal
failure, the latter answered by the fixed opaque body. -/
theorem claim_C6_store_route_witness :
    storeRouteRespond (Except.ok "u") =
      { status := 202, message := none, errName := none, publicURL := some "u" } ∧
    storeRouteRespond (Except.error (HubError.otherError "secret detail")) =
      { status := 500, message := some "Server Error", errName := none,
        publicURL := none } :=
  ⟨((claim_C6_store_route (Except.ok "u")).1 "u" rfl).1,
   (claim_C6_store_route (Except.error (HubError.otherError "secret detail"))).2.2.2.2.2
     "secret detail" rfl⟩

/-- C7: when a public read URL is configured (truthy) and differs from the
native base of the driver, and the URL of the driver starts with that native
base, the returned URL is the configured base spliced onto the remainder; in
every other case the URL of the driver is returned unchanged; and the
success value of handleRequest is exactly this rewriting of the URL the
driver returned. -/
theorem claim_C7_url_rewrite (configReadURL : Option String)
    (drvReadBase readURL : String) :
    (∀ r, configReadURL = some r → r ≠ "" → r ≠ drvReadBase →
      jsStartsWith readURL drvReadBase = true →
      rewriteReadURL configReadURL drvReadBase readURL =
        r ++ jsSliceFrom readURL drvReadBase.toList.length) ∧
    ((configReadURL = none ∨ configReadURL = some "" ∨
        configReadURL = some drvReadBase ∨
        jsStartsWith readURL drvReadBase = false) →
      rewriteReadURL configReadURL drvReadBase readURL = readURL) ∧
    (∀ (recoverRes : Except HubError String) (whitelist : Option (List String))
        (scopes : List AuthScope) (proofRes : Except HubError Unit)
        (performWrite : WriteCommand → Except HubError String)
        (address path : String) (contentTypeHdr : Option String)
        (contentLengthHdr : String),
      validate recoverRes whitelist = Except.ok () →
      checkScopesPath address path scopes = Except.ok () →
      proofRes = Except.ok () →
      performWrite (mkWriteCommand address path contentTypeHdr contentLengthHdr) =
        Except.ok readURL →
      (handleRequest recoverRes whitelist scopes proofRes performWrite drvReadBase
          configReadURL address path contentTypeHdr contentLengthHdr).fst =
        Except.ok (rewriteReadURL configReadURL drvReadBase readURL)) := by
  refine ⟨?_, ?_, ?_⟩
  · rintro r rfl hne hneq hsw
    simp [rewriteReadURL, getReadURLPre, hne, hneq, hsw]
  · rintro (rfl | rfl | rfl | hsw)
    · simp [rewriteReadURL, getReadURLPre]
    · simp [rewriteReadURL, getReadURLPre]
    · rcases eq_or_ne drvReadBase "" with h | h <;>
        simp [rewriteReadURL, getReadURLPre, h]
    · simp [rewriteReadURL, hsw]
  · intro recoverRes whitelist scopes proofRes performWrite address path
      contentTypeHdr contentLengthHdr hval hscope hproof hwrite
    subst hproof
    simp [handleRequest, hval, hscope, hwrite]

/-- Concrete instance of C7: a configured base rewrites a driver URL with
the native base as its head, and with no configured base the URL passes
through unchanged. -/
theorem claim_C7_url_rewrite_witness :
    rewriteReadURL (some "https://pub/") "https://drv/" "https://drv/f.txt" =
      "https://pub/f.txt" ∧
    rewriteReadURL none "https://drv/" "https://drv/f.txt" = "https://drv/f.txt" := by
  constructor
  · exact ((claim_C7_url_rewrite (some "https://pub/") "https://drv/"
      "https://drv/f.txt").1 "https://pub/" rfl (by decide) (by decide)
      (by decide)).trans (by decide)
  · exact (claim_C7_url_rewrite none "https://drv/" "https://drv/f.txt").2.1
      (Or.inl rfl)

/-- C8: the pipeline runs validate, scope check, proof check, driver write,
URL rewrite in that order; each failure short-circuits with the exact trace
of steps reached; the proof checker is not consulted when validation fails,
the driver write is not invoked when the proof check fails, and the rewrite
step is not applied to a failed write. -/
theorem claim_C8_pipeline_order (recoverRes : Except HubError String)
    (whitelist : Option (List String)) (scopes : List AuthScope)
    (proofRes : Except HubError Unit)
    (performWrite : WriteCommand → Except HubError String)
    (drvReadBase : String) (configReadURL : Option String)
    (address path : String) (contentTypeHdr : Option String)
    (contentLengthHdr : String) :
    (∀ url, validate recoverRes whitelist = Except.ok () →
      checkScopesPath address path scopes = Except.ok () →
      proofRes = Except.ok () →
      performWrite (mkWriteCommand address path contentTypeHdr contentLengthHdr) =
        Except.ok url →
      handleRequest recoverRes whitelist scopes proofRes performWrite drvReadBase
          configReadURL address path contentTypeHdr contentLengthHdr =
        (Except.ok (rewriteReadURL configReadURL drvReadBase url),
          [PipeEvent.validateInvoked, PipeEvent.scopeCheckInvoked,
           PipeEvent.proofCheckInvoked,
           PipeEvent.writeInvoked
             (mkWriteCommand address path contentTypeHdr contentLengthHdr),
           PipeEvent.rewriteInvoked])) ∧
    (∀ e, validate recoverRes whitelist = Except.error e →
      handleRequest recoverRes whitelist scopes proofRes performWrite drvReadBase
          configReadURL address path contentTypeHdr contentLengthHdr =
        (Except.error e, [PipeEvent.validateInvoked])) ∧
    (∀ e, validate recoverRes whitelist = Except.ok () →
      checkScopesPath address path scopes = Except.error e →
      handleRequest recoverRes whitelist scopes proofRes performWrite drvReadBase
          configReadURL address path contentTypeHdr contentLengthHdr =
        (Except.error e,
          [PipeEvent.validateInvoked, PipeEvent.scopeCheckInvoked])) ∧
    (∀ e, validate recoverRes whitelist = Except.ok () →
      checkScopesPath address path scopes = Except.ok () →
      proofRes = Except.error e →
      handleRequest recoverRes whitelist scopes proofRes performWrite drvReadBase
          configReadURL address path contentTypeHdr contentLengthHdr =
        (Except.error e,
          [PipeEvent.validateInvoked, PipeEvent.scopeCheckInvoked,
           PipeEvent.proofCheckInvoked])) ∧
    (∀ e, validate recoverRes whitelist = Except.ok () →
      checkScopesPath address path scopes = Except.ok () →
      proofRes = Except.ok () →
      performWrite (mkWriteCommand address path contentTypeHdr contentLengthHdr) =
        Except.error e →
      handleRequest recoverRes whitelist scopes proofRes performWrite drvReadBase
          configReadURL address path contentTypeHdr contentLengthHdr =
        (Except.error e,
          [PipeEvent.validateInvoked, PipeEvent.scopeCheckInvoked,
           PipeEvent.proofCheckInvoked,
           PipeEvent.writeInvoked
             (mkWriteCommand address path contentTypeHdr contentLengthHdr)])) ∧
    (∀ e, validate recoverRes whitelist = Except.error e →
      PipeEvent.proofCheckInvoked ∉
        (handleRequest recoverRes whitelist scopes proofRes performWrite drvReadBase
          configReadURL address path contentTypeHdr contentLengthHdr).snd) ∧
    (∀ e, proofRes = Except.error e → ∀ c,
      PipeEvent.writeInvoked c ∉
        (handleRequest recoverRes whitelist scopes proofRes performWrite drvReadBase
          configReadURL address path contentTypeHdr contentLengthHdr).snd) ∧
    (∀ e, performWrite (mkWriteCommand address path contentTypeHdr contentLengthHdr) =
        Except.error e →
      PipeEvent.rewriteInvoked ∉
        (handleRequest recoverRes whitelist scopes proofRes performWrite drvReadBase
          configReadURL address path contentTypeHdr contentLengthHdr).snd) := by
  refine ⟨?_, ?_, ?_, ?_, ?_, ?_, ?_, ?_⟩
  · intro url hval hscope hproof hwrite
    subst hproof
    simp [handleRequest, hval, hscope, hwrite]
  · intro e hval
    simp [handleRequest, hval]
  · intro e hval hscope
    simp [handleRequest, hval, hscope]
  · intro e hval hscope hproof
    subst hproof
    simp [handleRequest, hval, hscope]
  · intro e hval hscope hproof hwrite
    subst hproof
    simp [handleRequest, hval, hscope, hwrite]
  · intro e hval
    simp [handleRequest, hval]
  · intro e hproof c
    subst hproof
    cases hval : validate recoverRes whitelist with
    | error e2 => simp [handleRequest, hval]
    | ok u =>
      cases u
      cases hscope : checkScopesPath address path scopes with
      | error e2 => simp [handleRequest, hval, hscope]
      | ok u2 =>
        cases u2
        simp [handleRequest, hval, hscope]
  · intro e hwrite
    cases hval : validate recoverRes whitelist with
    | error e2 => simp [handleRequest, hval]
    | ok u =>
      cases u
      cases hscope : checkScopesPath address path scopes with
      | error e2 => simp [handleRequest, hval, hscope]
      | ok u2 =>
        cases u2
        cases hproof : proofRes with
        | error e2 => simp [handleRequest, hval, hscope, hproof]
        | ok u3 =>
          cases u3
          simp [handleRequest, hval, hscope, hproof, hwrite]

/-- Concrete instance of C8: with every collaborator succeeding all five
steps run in order, and with a failing proof check the pipeline stops after
the proof-check step with the driver never invoked. -/
theorem claim_C8_pipeline_order_witness :
    handleRequest (Except.ok "a") none [] (Except.ok ())
        (fun _ => Except.ok "https://drv/f") "https://drv/" none "a" "p" none "3" =
      (Except.ok "https://drv/f",
        [PipeEvent.validateInvoked, PipeEvent.scopeCheckInvoked,
         PipeEvent.proofCheckInvoked,
         PipeEvent.writeInvoked (mkWriteCommand "a" "p" none "3"),
         PipeEvent.rewriteInvoked]) ∧
    handleRequest (Except.ok "a") none []
        (Except.error (HubError.notEnoughProofError "no proof"))
        (fun _ => Except.ok "https://drv/f") "https://drv/" none "a" "p" none "3" =
      (Except.error (HubError.notEnoughProofError "no proof"),
        [PipeEvent.validateInvoked, PipeEvent.scopeCheckInvoked,
         PipeEvent.proofCheckInvoked]) := by
  constructor
  · exact ((claim_C8_pipeline_order (Except.ok "a") none [] (Except.ok ())
      (fun _ => Except.ok "https://drv/f") "https://drv/" none "a" "p" none "3").1
      "https://drv/f" rfl rfl rfl rfl).trans (by decide)
  · exact (claim_C8_pipeline_order (Except.ok "a") none []
      (Except.error (HubError.notEnoughProofError "no proof"))
      (fun _ => Except.ok "https://drv/f") "https://drv/" none "a" "p" none "3").2.2.2.1
      (HubError.notEnoughProofError "no proof") rfl rfl rfl

/-- C9: whenever the driver write is invoked, the content type of the write
command is the octet-stream default when the content-type header is absent
(null or undefined), and the header value unchanged when it is present. -/
theorem claim_C9_content_type (recoverRes : Except HubError String)
    (whitelist : Option (List String)) (scopes : List AuthScope)
    (proofRes : Except HubError Unit)
    (performWrite : WriteCommand → Except HubError String)
    (drvReadBase : String) (configReadURL : Option String)
    (address path : String) (contentTypeHdr : Option String)
    (contentLengthHdr : String) :
    ∀ cmd, PipeEvent.writeInvoked cmd ∈
        (handleRequest recoverRes whitelist scopes proofRes performWrite drvReadBase
          configReadURL address path contentTypeHdr contentLengthHdr).snd →
      (contentTypeHdr = none → cmd.contentType = "application/octet-stream") ∧
      (∀ c, contentTypeHdr = some c → cmd.contentType = c) := by
  intro cmd hmem
  have hcmd : cmd = mkWriteCommand address path contentTypeHdr contentLengthHdr := by
    cases hval : validate recoverRes whitelist with
    | error e2 => simp [handleRequest, hval] at hmem
    | ok u =>
      cases u
      cases hscope : checkScopesPath address path scopes with
      | error e2 => simp [handleRequest, hval, hscope] at hmem
      | ok u2 =>
        cases u2
        cases hproof : proofRes with
        | error e2 => simp [handleRequest, hval, hscope, hproof] at hmem
        | ok u3 =>
          cases u3
          cases hwrite : performWrite
              (mkWriteCommand address path contentTypeHdr contentLengthHdr) with
          | error e2 =>
            simp [handleRequest, hval, hscope, hproof, hwrite] at hmem
            exact hmem
          | ok url =>
            simp [handleRequest, hval, hscope, hproof, hwrite] at hmem
            exact hmem
  subst hcmd
  constructor
  · intro h
    subst h
    rfl
  · intro c h
    subst h
    rfl

/-- Concrete instance of C9: an absent content-type header yields the
octet-stream default, a present one is passed through. -/
theorem claim_C9_content_type_witness :
    (mkWriteCommand "a" "p" none "3").contentType = "application/octet-stream" ∧
    (mkWriteCommand "a" "p" (some "text/plain") "3").contentType = "text/plain" := by
  constructor
  · exact (claim_C9_content_type (Except.ok "a") none [] (Except.ok ())
      (fun _ => Except.ok "u") "d" none "a" "p" none "3"
      (mkWriteCommand "a" "p" none "3") (by decide)).1 rfl
  · exact (claim_C9_content_type (Except.ok "a") none [] (Except.ok ())
      (fun _ => Except.ok "u") "d" none "a" "p" (some "text/plain") "3"
      (mkWriteCommand "a" "p" (some "text/plain") "3") (by decide)).2 "text/plain" rfl

/-- C5 counterexample: a body carrying the negative timestamp -5 is not
rejected with a 400 response; the bump is invoked with -5, refuting the
statement that any negative oldestValidTimestamp is rejected before the
bump and the bump is invoked only for non-negative timestamps. -/
theorem claim_C5_counterexample :
    revokeRouteAction 10 (Json.obj [("oldestValidTimestamp", Json.num (-5))]) =
      RevokeAction.bumpInvoked (-5) ∧ (-5 : Int) < 0 := by
  constructor
  · decide
  · decide

/-- C5 amended: a body whose oldestValidTimestamp is missing or falsy (zero
included) or does not parse to an integer is rejected with 400 before the
bump; the bump is invoked exactly (both directions proved) for bodies whose
truthy field parses, under the radix-less parseInt with its hexadecimal 0x
prefix, to a finite integer, which may be negative. -/
theorem claim_C5_revoke_guard (contentLengthHdr : Int) (body : Json) :
    (contentLengthHdr ≤ 4096 → jsTruthy body = true →
      ∀ j, jsField body "oldestValidTimestamp" = some j →
      jsTruthy j = true →
      jsParseIntOfJson j = none →
      revokeRouteAction contentLengthHdr body =
        RevokeAction.respond400
          "Invalid JSON: oldestValidTimestamp is not a valid integer") ∧
    (contentLengthHdr ≤ 4096 →
      jsTruthyOpt (jsField body "oldestValidTimestamp") = false →
      revokeRouteAction contentLengthHdr body =
        RevokeAction.respond400 "Invalid JSON: missing oldestValidTimestamp") ∧
    (contentLengthHdr ≤ 4096 → jsTruthy body = false →
      revokeRouteAction contentLengthHdr body =
        RevokeAction.respond400 "Invalid JSON: missing oldestValidTimestamp") ∧
    (∀ ts, revokeRouteAction contentLengthHdr body = RevokeAction.bumpInvoked ts →
      ∃ j, jsField body "oldestValidTimestamp" = some j ∧ jsTruthy j = true ∧
        jsParseIntOfJson j = some ts) ∧
    (contentLengthHdr ≤ 4096 → jsTruthy body = true →
      ∀ j ts, jsField body "oldestValidTimestamp" = some j →
      jsTruthy j = true →
      jsParseIntOfJson j = some ts →
      revokeRouteAction contentLengthHdr body = RevokeAction.bumpInvoked ts) := by
  refine ⟨?_, ?_, ?_, ?_, ?_⟩
  · intro hcl hb j hj htj hparse
    unfold revokeRouteAction
    rw [if_neg (by omega)]
    rw [hj]
    simp [hb, htj, jsTruthyOpt, hparse]
  · intro hcl hf
    unfold revokeRouteAction
    rw [if_neg (by omega)]
    simp [hf]
  · intro hcl hb
    unfold revokeRouteAction
    rw [if_neg (by omega)]
    simp [hb]
  · intro ts h
    unfold revokeRouteAction at h
    by_cases hcl : contentLengthHdr > 4096
    · rw [if_pos hcl] at h
      exact absurd h (by simp)
    · rw [if_neg hcl] at h
      cases hj : jsField body "oldestValidTimestamp" with
      | none =>
        rw [hj] at h
        simp [jsTruthyOpt] at h
      | some j =>
        rw [hj] at h
        cases hb : jsTruthy body with
        | false => simp [hb] at h
        | true =>
          cases htj : jsTruthy j with
          | false => simp [hb, htj, jsTruthyOpt] at h
          | true =>
            cases hparse : jsParseIntOfJson j with
            | none => simp [hb, htj, jsTruthyOpt, hparse] at h
            | some n =>
              refine ⟨j, rfl, htj, ?_⟩
              simp [hb, htj, jsTruthyOpt, hparse] at h
              rw [hparse, h]
  · intro hcl hb j ts hj htj hparse
    unfold revokeRouteAction
    rw [if_neg (by omega)]
    rw [hj]
    simp [hb, htj, jsTruthyOpt, hparse]

/-- Concrete instances of the amended C5: an absent field and a
non-numeric field are both rejected with 400 before the bump, and a
hexadecimal string field is bumped with its hexadecimal value. -/
theorem claim_C5_revoke_guard_witness :
    revokeRouteAction 10 (Json.obj [("other", Json.num 7)]) =
      RevokeAction.respond400 "Invalid JSON: missing oldestValidTimestamp" ∧
    revokeRouteAction 10 (Json.obj [("oldestValidTimestamp", Json.str "abc")]) =
      RevokeAction.respond400
        "Invalid JSON: oldestValidTimestamp is not a valid integer" ∧
    revokeRouteAction 10 (Json.obj [("oldestValidTimestamp", Json.str "0x1F")]) =
      RevokeAction.bumpInvoked 31 := by
  refine ⟨?_, ?_, ?_⟩
  · exact (claim_C5_revoke_guard 10 (Json.obj [("other", Json.num 7)])).2.1
      (by norm_num) (by decide)
  · exact (claim_C5_revoke_guard 10
      (Json.obj [("oldestValidTimestamp", Json.str "abc")])).1
      (by norm_num) (by decide) (Json.str "abc") rfl (by decide) (by decide)
  · exact (claim_C5_revoke_guard 10
      (Json.obj [("oldestValidTimestamp", Json.str "0x1F")])).2.2.2.2
      (by norm_num) (by decide) (Json.str "0x1F") 31 rfl (by decide) (by decide)

/-- C3 counterexample: a five-element challenge array carrying the marker
at element 0 and the sentinel phrase at element 3 is not a 4-element array,
yet makeLegacyAuthToken succeeds on it instead of failing with the
unsupported-challenge error. -/
theorem claim_C3_counterexample :
    (makeLegacyAuthToken (fun _ => some sampleChallenge5)
        (fun _ _ => "sig") (fun _ => "pub") "challenge" "key").isOk = true ∧
    legacySentinelShape4 sampleChallenge5 = false := by
  constructor
  · decide
  · decide

/-- C3 amended: makeLegacyAuthToken succeeds exactly when the challenge
parses and JavaScript indexing of the parsed value yields the marker at 0
and the sentinel phrase at 3, with no constraint on arity or on being an
array; a challenge that fails to parse yields the parse error; a challenge
parsing to the JSON null value escapes as an uncaught TypeError from the
property access; every other non-matching challenge fails with the
unsupported-challenge error; on success the token pairs the public key of
the truncated secret key with a signature over the raw challenge text, and
every challenge of the 4-element sentinel shape the specification
describes does succeed. -/
theorem claim_C3_legacy_token (parse : String → Option Json)
    (signChallenge : String → String → String) (getPub : String → String)
    (challengeText secretKey : String) :
    ((makeLegacyAuthToken parse signChallenge getPub challengeText secretKey).isOk
        = true ↔
      ∃ p elem0 elem3, parse challengeText = some p ∧
        jsIndex p 0 = Except.ok elem0 ∧ jsStrictEqStr elem0 "gaiahub" = true ∧
        jsIndex p 3 = Except.ok elem3 ∧
        jsStrictEqStr elem3 "blockstack_storage_please_sign" = true) ∧
    (parse challengeText = none →
      makeLegacyAuthToken parse signChallenge getPub challengeText secretKey =
        Except.error (ClientError.challengeParseError
          "Failed in parsing legacy challenge text from the gaia hub.")) ∧
    (parse challengeText = some Json.null →
      makeLegacyAuthToken parse signChallenge getPub challengeText secretKey =
        Except.error (ClientError.jsTypeError "Cannot read property 0 of null")) ∧
    (∀ p elem0, parse challengeText = some p → jsIndex p 0 = Except.ok elem0 →
      jsStrictEqStr elem0 "gaiahub" = false →
      makeLegacyAuthToken parse signChallenge getPub challengeText secretKey =
        Except.error (ClientError.unsupportedChallengeError
          "Failed to connect to legacy gaia hub. If you operate this hub, please update.")) ∧
    (∀ p elem0 elem3, parse challengeText = some p →
      jsIndex p 0 = Except.ok elem0 → jsStrictEqStr elem0 "gaiahub" = true →
      jsIndex p 3 = Except.ok elem3 →
      jsStrictEqStr elem3 "blockstack_storage_please_sign" = false →
      makeLegacyAuthToken parse signChallenge getPub challengeText secretKey =
        Except.error (ClientError.unsupportedChallengeError
          "Failed to connect to legacy gaia hub. If you operate this hub, please update.")) ∧
    (∀ p elem0 elem3, parse challengeText = some p →
      jsIndex p 0 = Except.ok elem0 → jsStrictEqStr elem0 "gaiahub" = true →
      jsIndex p 3 = Except.ok elem3 →
      jsStrictEqStr elem3 "blockstack_storage_please_sign" = true →
      makeLegacyAuthToken parse signChallenge getPub challengeText secretKey =
        Except.ok { publickey := getPub (secretKey.take 64),
                    signature := signChallenge (secretKey.take 64) challengeText }) ∧
    (∀ p, parse challengeText = some p → legacySentinelShape4 p = true →
      (makeLegacyAuthToken parse signChallenge getPub challengeText secretKey).isOk
        = true) := by
  have hshape : ∀ p, legacySentinelShape4 p = true →
      ∃ elem0 elem3, jsIndex p 0 = Except.ok elem0 ∧
        jsStrictEqStr elem0 "gaiahub" = true ∧
        jsIndex p 3 = Except.ok elem3 ∧
        jsStrictEqStr elem3 "blockstack_storage_please_sign" = true := by
    intro p hp
    cases p <;> simp [legacySentinelShape4] at hp
    rename_i es
    obtain ⟨⟨hlen, h0⟩, h3⟩ := hp
    refine ⟨es.get? 0, es.get? 3, by simp [jsIndex], ?_, by simp [jsIndex], ?_⟩
    · simpa using h0
    · simpa using h3
  refine ⟨?_, ?_, ?_, ?_, ?_, ?_, ?_⟩
  · cases hp : parse challengeText with
    | none =>
      simp only [makeLegacyAuthToken, hp]
      constructor
      · intro h
        exact absurd h (by decide)
      · rintro ⟨p, elem0, elem3, hpp, _⟩
        exact Option.noConfusion hpp
    | some p =>
      simp only [makeLegacyAuthToken, hp]
      cases hi0 : jsIndex p 0 with
      | error m =>
        simp only [hi0]
        constructor
        · intro h
          simp [Except.isOk, Except.toBool] at h
        · rintro ⟨q, elem0, elem3, hq, hq0, hc0, hq3, hc3⟩
          cases hq
          rw [hi0] at hq0
          exact Except.noConfusion hq0
      | ok elem0 =>
        simp only [hi0]
        by_cases h0 : jsStrictEqStr elem0 "gaiahub" = true
        · rw [if_pos h0]
          cases hi3 : jsIndex p 3 with
          | error m =>
            simp only [hi3]
            constructor
            · intro h
              simp [Except.isOk, Except.toBool] at h
            · rintro ⟨q, elem0b, elem3, hq, hq0, hc0, hq3, hc3⟩
              cases hq
              rw [hi3] at hq3
              exact Except.noConfusion hq3
          | ok elem3 =>
            simp only [hi3]
            by_cases h3 :
                jsStrictEqStr elem3 "blockstack_storage_please_sign" = true
            · rw [if_pos h3]
              exact ⟨fun _ => ⟨p, elem0, elem3, rfl, hi0, h0, hi3, h3⟩,
                fun _ => rfl⟩
            · rw [if_neg h3]
              constructor
              · intro h
                exact absurd h (by decide)
              · rintro ⟨q, elem0b, elem3b, hq, hq0, hc0, hq3, hc3⟩
                cases hq
                rw [hi3] at hq3
                cases hq3
                exact absurd hc3 h3
        · rw [if_neg h0]
          constructor
          · intro h
            exact absurd h (by decide)
          · rintro ⟨q, elem0b, elem3b, hq, hq0, hc0, hq3, hc3⟩
            cases hq
            rw [hi0] at hq0
            cases hq0
            exact absurd hc0 h0
  · intro hp
    simp [makeLegacyAuthToken, hp]
  · intro hp
    simp only [makeLegacyAuthToken, hp]
    rfl
  · intro p elem0 hp hi0 h0
    simp [makeLegacyAuthToken, hp, hi0, h0]
  · intro p elem0 elem3 hp hi0 h0 hi3 h3
    simp [makeLegacyAuthToken, hp, hi0, h0, hi3, h3]
  · intro p elem0 elem3 hp hi0 h0 hi3 h3
    simp [makeLegacyAuthToken, hp, hi0, h0, hi3, h3]
  · intro p hp hshape4
    obtain ⟨elem0, elem3, hi0, h0, hi3, h3⟩ := hshape p hshape4
    simp [makeLegacyAuthToken, hp, hi0, h0, hi3, h3, Except.isOk, Except.toBool]

/-- Concrete instances of the amended C3: the 4-element sentinel challenge
succeeds with the expected token, an unparsable challenge fails with the
parse error, and a challenge parsing to null escapes as a TypeError. -/
theorem claim_C3_legacy_token_witness :
    makeLegacyAuthToken (fun _ => some sampleChallenge4)
        (fun _ _ => "sig") (fun _ => "pub") "challenge" "key" =
      Except.ok { publickey := "pub", signature := "sig" } ∧
    makeLegacyAuthToken (fun _ => none)
        (fun _ _ => "sig") (fun _ => "pub") "challenge" "key" =
      Except.error (ClientError.challengeParseError
        "Failed in parsing legacy challenge text from the gaia hub.") ∧
    makeLegacyAuthToken (fun _ => some Json.null)
        (fun _ _ => "sig") (fun _ => "pub") "challenge" "key" =
      Except.error (ClientError.jsTypeError "Cannot read property 0 of null") := by
  refine ⟨?_, ?_, ?_⟩
  · exact ((claim_C3_legacy_token (fun _ => some sampleChallenge4)
      (fun _ _ => "sig") (fun _ => "pub") "challenge" "key").2.2.2.2.2.1
      sampleChallenge4 (some (Json.str "gaiahub"))
      (some (Json.str "blockstack_storage_please_sign"))
      rfl rfl (by decide) rfl (by decide)).trans (by decide)
  · exact (claim_C3_legacy_token (fun _ => none)
      (fun _ _ => "sig") (fun _ => "pub") "challenge" "key").2.1 rfl
  · exact (claim_C3_legacy_token (fun _ => some Json.null)
      (fun _ _ => "sig") (fun _ => "pub") "challenge" "key").2.2.1 rfl

/-- C4: makeAuthToken takes the legacy path when the hub advertises no
latest_auth_version (or a falsy or unparsable one) or a parsed version
below 1, and produces the v1 token, a string carrying the v1 tag, exactly
when the advertised version string parses (after its leading format
character is dropped) to a number that is 1 or greater. -/
theorem claim_C4_version_selection (parse : String → Option Json)
    (signChallenge : String → String → String) (getPub : String → String)
    (encodeLegacy : LegacyToken → String)
    (signPayload : String → V1Payload → String) (now : Int) (salt : String)
    (hubInfo : HubInfo) (signerKeyHex hubUrl : String)
    (associationToken : Option String) :
    (jsHandlesV1Auth hubInfo = true ↔
      ∃ v n, hubInfo.latest_auth_version = some v ∧ v ≠ "" ∧
        jsParseInt (v.drop 1) = some n ∧ 1 ≤ n) ∧
    (jsHandlesV1Auth hubInfo = true →
      makeAuthToken parse signChallenge getPub encodeLegacy signPayload now salt
          hubInfo signerKeyHex hubUrl associationToken =
        Except.ok (makeV1AuthToken signPayload getPub now salt signerKeyHex
          hubInfo.challenge_text associationToken (some hubUrl)) ∧
      ∃ t, makeV1AuthToken signPayload getPub now salt signerKeyHex
          hubInfo.challenge_text associationToken (some hubUrl) = "v1:" ++ t) ∧
    (jsHandlesV1Auth hubInfo = false →
      makeAuthToken parse signChallenge getPub encodeLegacy signPayload now salt
          hubInfo signerKeyHex hubUrl associationToken =
        (makeLegacyAuthToken parse signChallenge getPub hubInfo.challenge_text
          signerKeyHex).map encodeLegacy) ∧
    (hubInfo.latest_auth_version = none → jsHandlesV1Auth hubInfo = false) := by
  refine ⟨?_, ?_, ?_, ?_⟩
  · unfold jsHandlesV1Auth
    cases hv : hubInfo.latest_auth_version with
    | none =>
      simp
    | some v =>
      cases hp : jsParseInt (v.drop 1) with
      | none =>
        simp only [hp, Bool.and_false, Bool.false_eq_true, false_iff]
        rintro ⟨v2, n, hv2, hne, hp2, hn⟩
        cases hv2
        rw [hp] at hp2
        exact Option.noConfusion hp2
      | some n =>
        simp only [hp, Bool.and_eq_true, bne_iff_ne, ne_eq, decide_eq_true_eq]
        constructor
        · rintro ⟨hne, hn⟩
          exact ⟨v, n, rfl, hne, hp, hn⟩
        · rintro ⟨v2, n2, hv2, hne, hp2, hn⟩
          cases hv2
          rw [hp] at hp2
          cases hp2
          exact ⟨hne, hn⟩
  · intro h
    unfold makeAuthToken
    rw [if_pos h]
    exact ⟨rfl, _, rfl⟩
  · intro h
    unfold makeAuthToken
    rw [if_neg (by simp [h])]
  · intro h
    unfold jsHandlesV1Auth
    rw [h]

/-- Concrete instances of C4: a hub advertising v1 receives a v1-tagged
token; a hub advertising no version receives the legacy token. -/
theorem claim_C4_version_selection_witness :
    makeAuthToken (fun _ => some sampleChallenge4) (fun _ _ => "sig")
        (fun _ => "pub") (fun _ => "legacyB64") (fun _ _ => "signedPayload")
        0 "salt" { challenge_text := "c", latest_auth_version := some "v1" }
        "key" "https://hub" none =
      Except.ok "v1:signedPayload" ∧
    makeAuthToken (fun _ => some sampleChallenge4) (fun _ _ => "sig")
        (fun _ => "pub") (fun _ => "legacyB64") (fun _ _ => "signedPayload")
        0 "salt" { challenge_text := "c", latest_auth_version := none }
        "key" "https://hub" none =
      Except.ok "legacyB64" := by
  constructor
  · exact ((claim_C4_version_selection (fun _ => some sampleChallenge4)
      (fun _ _ => "sig") (fun _ => "pub") (fun _ => "legacyB64")
      (fun _ _ => "signedPayload") 0 "salt"
      { challenge_text := "c", latest_auth_version := some "v1" }
      "key" "https://hub" none).2.1 (by decide)).1.trans (by decide)
  · exact ((claim_C4_version_selection (fun _ => some sampleChallenge4)
      (fun _ _ => "sig") (fun _ => "pub") (fun _ => "legacyB64")
      (fun _ _ => "signedPayload") 0 "salt"
      { challenge_text := "c", latest_auth_version := none }
      "key" "https://hub" none).2.2.1 rfl).trans (by decide)

end Gaia
